import Mathlib

/-!
Shallow embedding of the orchestration core of the vibe-code CLI
(repository scanner, quota estimator, prompt builder, error classifier,
retry orchestrator, fallback analyzer), translated from the TypeScript
sources in src/.  Strings are modelled as `List Char`; JavaScript's
`toLowerCase`, `includes`, `slice` and the one regular expression in the
error handler are modelled character by character.
-/

namespace VibeCode

/-- A string literal as a character list. -/
def lit (s : String) : List Char := s.toList

/-- JavaScript `String.prototype.toLowerCase`, character-wise. -/
def lowerL (s : List Char) : List Char := s.map Char.toLower

/-- `leadsWith s t` : `t` is a prefix of `s` (character equality). -/
def leadsWith : List Char → List Char → Bool
  | _, [] => true
  | [], _ :: _ => false
  | c :: cs, d :: ds => c == d && leadsWith cs ds

/-- JavaScript `String.prototype.includes`: `sub` occurs contiguously in `s`. -/
def containsSub : List Char → List Char → Bool
  | s, sub =>
    match s with
    | [] => leadsWith [] sub
    | c :: rest => leadsWith (c :: rest) sub || containsSub rest sub

theorem leadsWith_nil_right (s : List Char) : leadsWith s [] = true := by
  cases s <;> rfl

theorem containsSub_nil (sub : List Char) : containsSub [] sub = leadsWith [] sub := rfl

theorem containsSub_cons (c : Char) (rest sub : List Char) :
    containsSub (c :: rest) sub = (leadsWith (c :: rest) sub || containsSub rest sub) := rfl

theorem leadsWith_refl_append (s t : List Char) : leadsWith (s ++ t) s = true := by
  induction s with
  | nil => exact leadsWith_nil_right t
  | cons c cs ih => simp [leadsWith, ih]

theorem containsSub_of_leadsWith {s sub : List Char} (h : leadsWith s sub = true) :
    containsSub s sub = true := by
  cases s with
  | nil => simpa [containsSub_nil] using h
  | cons c rest => simp [containsSub_cons, h]

theorem containsSub_append_left {r sub : List Char} (a : List Char)
    (h : containsSub r sub = true) : containsSub (a ++ r) sub = true := by
  induction a with
  | nil => simpa using h
  | cons c cs ih => simp [containsSub_cons, ih]

theorem containsSub_middle (a sub b : List Char) :
    containsSub (a ++ (sub ++ b)) sub = true :=
  containsSub_append_left a (containsSub_of_leadsWith (leadsWith_refl_append sub b))

theorem leadsWith_map (f : Char → Char) {s t : List Char} (h : leadsWith s t = true) :
    leadsWith (s.map f) (t.map f) = true := by
  induction s generalizing t with
  | nil =>
    cases t with
    | nil => rfl
    | cons d ds => simp [leadsWith] at h
  | cons c cs ih =>
    cases t with
    | nil => exact leadsWith_nil_right _
    | cons d ds =>
      simp only [leadsWith, Bool.and_eq_true, beq_iff_eq] at h
      simp [List.map, leadsWith, h.1, ih h.2]

theorem containsSub_map (f : Char → Char) {s t : List Char} (h : containsSub s t = true) :
    containsSub (s.map f) (t.map f) = true := by
  induction s with
  | nil =>
    cases t with
    | nil => rfl
    | cons d ds => simp [containsSub_nil, leadsWith] at h
  | cons c cs ih =>
    rw [containsSub_cons, Bool.or_eq_true] at h
    rcases h with h | h
    · have := leadsWith_map f h
      simp only [List.map] at this ⊢
      simp [containsSub_cons, this]
    · simp [containsSub_cons, ih h]

/-! ### Error classifier (src/error-handler.ts) -/

/-- The closed set of error kinds of `GeminiErrorInfo.type`. -/
inductive ErrType where
  | quota_exceeded
  | rate_limit
  | invalid_key
  | model_unavailable
  | content_too_large
  | unknown
deriving DecidableEq

/-- `GeminiErrorInfo` from src/error-handler.ts. -/
structure GeminiErrorInfo where
  type : ErrType
  message : List Char
  suggestions : List (List Char)
  retryAfter : Option Nat := none
deriving DecidableEq

def dquoteChar : Char := Char.ofNat 34
def squoteChar : Char := Char.ofNat 39

def isQuoteOrColonChar (c : Char) : Bool := c == squoteChar || c == dquoteChar || c == ':'

def isQuoteChar (c : Char) : Bool := c == squoteChar || c == dquoteChar

/-- The characters JavaScript's `\s` class matches (ASCII part; the inputs
at issue use plain spaces). -/
def isJsSpace (c : Char) : Bool :=
  c == ' ' || c == '\t' || c == '\n' || c == '\r' || c == Char.ofNat 11 || c == Char.ofNat 12

def digitsToNat (ds : List Char) : Nat :=
  ds.foldl (fun n c => n * 10 + (c.toNat - 48)) 0

/-- The tail of the regex `/retrydelay['":][\s]*['"]*(\d+)s/i` after the
literal `retrydelay`: one of `' " :`, then whitespace, then quotes, then the
captured digits, then `s` (case-insensitive).  The character classes are
pairwise disjoint, so greedy matching needs no backtracking. -/
def retryTail (s : List Char) : Option Nat :=
  match s with
  | [] => none
  | c :: rest =>
    if isQuoteOrColonChar c then
      let r1 := rest.dropWhile isJsSpace
      let r2 := r1.dropWhile isQuoteChar
      let digits := r2.takeWhile Char.isDigit
      match r2.dropWhile Char.isDigit with
      | d :: _ =>
        if digits.isEmpty then none
        else if Char.toLower d == 's' then some (digitsToNat digits) else none
      | [] => none
    else none

/-- `t` is a case-insensitive prefix of `s` (`t` given lowercase). -/
def leadsWithCI : List Char → List Char → Bool
  | _, [] => true
  | [], _ :: _ => false
  | c :: cs, d :: ds => Char.toLower c == d && leadsWithCI cs ds

/-- `errorMessage.match(/retrydelay['":][\s]*['"]*(\d+)s/i)`: the first
(leftmost) match's captured integer. -/
def extractRetryDelay : List Char → Option Nat
  | [] => none
  | c :: rest =>
    if leadsWithCI (c :: rest) (lit "retrydelay") then
      match retryTail ((c :: rest).drop 10) with
      | some n => some n
      | none => extractRetryDelay rest
    else extractRetryDelay rest

/-- `parseQuotaError` from src/error-handler.ts: receives the original
(uncased) error message. -/
def parseQuotaError (errorMessage : List Char) : GeminiErrorInfo :=
  let freeTier := containsSub errorMessage (lit "free_tier")
  let suggestions : List (List Char) :=
    if freeTier then
      [lit "🆓 You\x27re using the FREE tier of Gemini API"]
      ++ (if containsSub errorMessage (lit "input_token_count") then
            [lit "📊 Too many input tokens used (text sent to AI)",
             lit "💡 Try analyzing smaller files or fewer files at once"]
          else [])
      ++ (if containsSub errorMessage (lit "requests") then
            [lit "🔄 Too many requests made to the API"]
            ++ (if containsSub errorMessage (lit "PerMinute") then
                  [lit "⏱️  Free tier: 15 requests per minute limit",
                   lit "⏳ Wait 1-2 minutes before trying again"]
                else [])
            ++ (if containsSub errorMessage (lit "PerDay") then
                  [lit "📅 Free tier: 1,500 requests per day limit",
                   lit "🌅 Wait until tomorrow or upgrade to paid plan"]
                else [])
          else [])
      ++ [lit "💳 Consider upgrading to a paid plan for higher limits",
          lit "🔗 Billing info: https://console.cloud.google.com/billing"]
    else
      [lit "💳 Check your billing and payment details",
       lit "📈 You may need to increase your quota limits"]
  let retryAfter := extractRetryDelay errorMessage
  let suggestions := suggestions ++
    (match retryAfter with
     | some n => [lit "⏰ Suggested retry time: " ++ (Nat.repr n).toList ++ lit " seconds"]
     | none => [])
  { type := .quota_exceeded
    message := if freeTier then lit "You have exceeded your free tier quota limits"
               else lit "You have exceeded your API quota limits"
    suggestions := suggestions
    retryAfter := retryAfter }

/-- `parseRateLimitError` from src/error-handler.ts. -/
def parseRateLimitError (errorMessage : List Char) : GeminiErrorInfo :=
  let perMinute := containsSub errorMessage (lit "requests per minute")
  let suggestions : List (List Char) :=
    (if perMinute then
       [lit "⏱️  You\x27re making requests too quickly",
        lit "⏳ Wait 1-2 minutes before trying again"]
     else [])
    ++ (if containsSub errorMessage (lit "quota metric") then
          [lit "📊 API quota limits reached",
           lit "💡 Try using a lighter model like gemini-1.5-flash"]
        else [])
    ++ [lit "🔄 The system will automatically retry with delays"]
  { type := .rate_limit
    message := if perMinute then lit "Too many requests per minute" else lit "Rate limit exceeded"
    suggestions := suggestions
    retryAfter := none }

/-- `parseGeminiError` from src/error-handler.ts: branches on the lowercased
message, first match wins. -/
def parseGeminiError (msg : List Char) : GeminiErrorInfo :=
  let em := lowerL msg
  if containsSub em (lit "exceeded your current quota") || containsSub em (lit "quotafailure") then
    parseQuotaError msg
  else if containsSub em (lit "429") && containsSub em (lit "rate_limit_exceeded") then
    parseRateLimitError msg
  else if containsSub em (lit "401") || containsSub em (lit "api_key") then
    { type := .invalid_key
      message := lit "Invalid or missing API key"
      suggestions :=
        [lit "Check that your API key is correct",
         lit "Ensure your API key has the necessary permissions",
         lit "Get a new API key at: https://makersuite.google.com/app/apikey"] }
  else if containsSub em (lit "400") || containsSub em (lit "content") then
    { type := .content_too_large
      message := lit "Request content is too large or malformed"
      suggestions :=
        [lit "Try analyzing a smaller repository",
         lit "Reduce the number of files being analyzed",
         lit "Use a different model that supports larger inputs"] }
  else if containsSub em (lit "model") && containsSub em (lit "not found") then
    { type := .model_unavailable
      message := lit "The selected model is not available"
      suggestions :=
        [lit "Try a different model like gemini-1.5-flash",
         lit "Check if the model name is correct",
         lit "Some models may not be available in your region"] }
  else
    { type := .unknown
      message := msg
      suggestions :=
        [lit "Try again in a few minutes",
         lit "Check your internet connection",
         lit "Contact support if the issue persists"] }

/-- `errorInfo.retryAfter || 60` from src/analyzer.ts line 102: the
interactive wait-and-retry delay (JavaScript `||` treats 0 as falsy). -/
def interactiveWaitTime (info : GeminiErrorInfo) : Nat :=
  match info.retryAfter with
  | some n => if n = 0 then 60 else n
  | none => 60

/-! ### Retry orchestrator (src/analyzer.ts, `generateWithRetry`) -/

/-- Outcome of the retry wrapper: the analysis text, or the error it throws. -/
inductive RetryResult where
  | success (text : List Char)
  | failure (msg : List Char)
deriving DecidableEq

/-- The loop body of `generateWithRetry`.  `stub` is the Gateway
(`client.generateContent`), indexed by attempt number (starting at 1);
`left` is the number of attempts still allowed including the current one
(`maxRetries - attempt + 1`), so `left = 1` is the `attempt === maxRetries`
case that rethrows.  Returns the outcome, the number of Gateway calls made,
and the list of backoff waits in milliseconds (`2^attempt * 1000`). -/
def retryGo (stub : Nat → Except (List Char) (List Char)) :
    Nat → Nat → RetryResult × Nat × List Nat
  | attempt, 0 => (.failure (lit "Max retries exceeded"), attempt - 1, [])
  | attempt, left + 1 =>
    match stub attempt with
    | .ok text => (.success text, attempt, [])
    | .error msg =>
      if left = 0 then (.failure msg, attempt, [])
      else if (parseGeminiError msg).type = .rate_limit then
        let waitTime := 2 ^ attempt * 1000
        let r := retryGo stub (attempt + 1) left
        (r.1, r.2.1, waitTime :: r.2.2)
      else (.failure msg, attempt, [])

/-- `generateWithRetry(client, prompt, spinner, maxRetries = 2)`:
the loop runs `attempt = 1 .. maxRetries`. -/
def generateWithRetry (stub : Nat → Except (List Char) (List Char))
    (maxRetries : Nat := 2) : RetryResult × Nat × List Nat :=
  retryGo stub 1 maxRetries

/-! ### Interactive recovery (src/analyzer.ts, `analyzeRepository` catch
block) and top-level exit handling (src/index.ts, `handleAnalysis`) -/

/-- The quota/rate-limit decision menu's choices. -/
inductive UserChoice where
  | fallback
  | retry
  | quitRun
deriving DecidableEq

/-- A scripted user: the menu answer and the new-API-key confirmation at
each recursion depth of `analyzeRepository`. -/
structure Oracle where
  menuChoice : Nat → UserChoice
  keyConfirm : Nat → Bool

/-- What escapes `analyzeRepository`: the `UserExitError` sentinel
(`error.name === "UserExitError"`), or a real error. -/
inductive RunError where
  | userExit (msg : List Char)
  | fatal (msg : List Char)
deriving DecidableEq

/-- `analyzeRepository` with its catch block, as a recursion over fuel.
`stub depth attempt` is the Gateway outcome at recursion depth `depth`
(each user-chosen retry re-runs the whole analysis) and attempt number
`attempt`; `fallbackText` stands for the Fallback Analyzer's deterministic
output.  The interactive prompts are consulted only on the
`quota_exceeded`/`rate_limit` and `invalid_key` paths, exactly as in the
source. -/
def analyzeRun (stub : Nat → Nat → Except (List Char) (List Char)) (oracle : Oracle)
    (fallbackText : List Char) : Nat → Nat → Except RunError (List Char)
  | 0, _ => .error (.fatal (lit "out of fuel"))
  | fuel + 1, depth =>
    match (generateWithRetry (stub depth) 2).1 with
    | .success text => .ok text
    | .failure msg =>
      let errorInfo := parseGeminiError msg
      if errorInfo.type = .quota_exceeded ∨ errorInfo.type = .rate_limit then
        match oracle.menuChoice depth with
        | .fallback => .ok fallbackText
        | .retry => analyzeRun stub oracle fallbackText fuel (depth + 1)
        | .quitRun => .error (.userExit (lit "User chose to exit"))
      else if errorInfo.type = .invalid_key then
        if oracle.keyConfirm depth then analyzeRun stub oracle fallbackText fuel (depth + 1)
        else .error (.userExit (lit "User chose not to provide new API key"))
      else .error (.fatal msg)

/-- `handleAnalysis` in src/index.ts: a `UserExitError` exits with status 0,
every other error with status 1. -/
def exitCodeOfError : RunError → Nat
  | .userExit _ => 0
  | .fatal _ => 1

/-! ### Repository scanner (src/scanner.ts) -/

/-- `IMPORTANT_EXTENSIONS` from src/scanner.ts. -/
def IMPORTANT_EXTENSIONS : List (List Char) :=
  [lit ".js", lit ".ts", lit ".jsx", lit ".tsx", lit ".vue", lit ".py", lit ".go",
   lit ".rs", lit ".java", lit ".json", lit ".md", lit ".yml", lit ".yaml",
   lit ".toml", lit ".config.js", lit ".config.ts"]

/-- `FileInfo` from src/types.ts as the scanner builds it. -/
structure FileInfo where
  path : List Char
  content : List Char
  size : Nat
  extension : List Char
deriving DecidableEq

/-- A filesystem entry as the glob walk yields it: path, byte size, and its
text content (`none` when the file cannot be read as text). -/
structure RawFile where
  path : List Char
  size : Nat
  content : Option (List Char)
deriving DecidableEq

/-- The portion of a path after the last slash. -/
def baseNameOf (p : List Char) : List Char :=
  (p.reverse.takeWhile (fun c => c != '/')).reverse

/-- Node's `path.extname`: from the last dot of the base name (inclusive) to
the end; empty when there is no dot or the only dot leads the name. -/
def extname (p : List Char) : List Char :=
  let b := baseNameOf p
  let t := (b.reverse.takeWhile (fun c => c != '.')).length
  if t < b.length then
    if b.length - t - 1 = 0 then [] else b.drop (b.length - t - 1)
  else []

/-- The scanner's `isImportant` test (selection phase): extension in the
allow-list, or the path contains `package.json`, `README`, or `config`. -/
def specImportant (path ext : List Char) : Bool :=
  IMPORTANT_EXTENSIONS.contains ext || containsSub path (lit "package.json")
    || containsSub path (lit "README") || containsSub path (lit "config")

/-- The scanner's selection loop: skip files over 1 MiB, keep a file when it
is important or fewer than 50 files are collected so far, skip unreadable
files. -/
def scanSelect : List RawFile → List FileInfo → List FileInfo
  | [], acc => acc
  | r :: rest, acc =>
    if r.size > 1024 * 1024 then scanSelect rest acc
    else
      let ext := extname r.path
      if specImportant r.path ext ∨ acc.length < 50 then
        match r.content with
        | some c => scanSelect rest (acc ++ [⟨r.path, c, r.size, ext⟩])
        | none => scanSelect rest acc
      else scanSelect rest acc

/-- The sort comparator's importance test: extension membership ONLY (the
comparator in src/scanner.ts lines 85-94 does not consult the path). -/
def importantExt (e : List Char) : Bool := IMPORTANT_EXTENSIONS.contains e

/-- The comparator of `files.sort` as a may-precede relation: important
extensions first, then ascending byte size. -/
def fileLe (a b : FileInfo) : Bool :=
  if importantExt a.extension = importantExt b.extension then decide (a.size ≤ b.size)
  else importantExt a.extension

def fileRel (a b : FileInfo) : Prop := fileLe a b = true

instance : DecidableRel fileRel := fun a b => instDecidableEqBool (fileLe a b) true

/-- `scanRepository`: selection followed by the (stable) sort. -/
def scanRepository (raw : List RawFile) : List FileInfo :=
  List.insertionSort fileRel (scanSelect raw [])

/-! ### Prompt builder (src/analyzer.ts, `createAnalysisPrompt`) -/

inductive ModelType where
  | standard
  | advanced
deriving DecidableEq

/-- `GeminiConfig` from src/types.ts (the fields the core uses). -/
structure GeminiConfig where
  model : List Char
  apiKey : List Char
  modelType : ModelType
  enableAdvancedFeatures : Bool

/-- `maxFiles` in `createAnalysisPrompt`. -/
def maxFilesFor (config : GeminiConfig) : Nat :=
  if config.modelType = .advanced then 20 else 12

/-- `maxContentLength` in `createAnalysisPrompt`. -/
def maxContentFor (config : GeminiConfig) : Nat :=
  if config.modelType = .advanced then 2000 else 1200

/-- `files.filter((f) => f.size < 30000).slice(0, maxFiles)`: the files whose
content the prompt includes. -/
def promptFiles (files : List FileInfo) (config : GeminiConfig) : List FileInfo :=
  (files.filter (fun f => decide (f.size < 30000))).take (maxFilesFor config)

/-- One file's labeled block in the prompt, with the truncation marker when
the content exceeds the per-file cap. -/
def fileBlock (maxContentLength : Nat) (f : FileInfo) : List Char :=
  lit "File: " ++ f.path ++ lit "\nContent:\n" ++ f.content.take maxContentLength
    ++ (if maxContentLength < f.content.length then lit "\n... (truncated)" else [])
    ++ lit "\n---\n"

/-- `createAnalysisPrompt`: the instruction template around the joined file
blocks, with the advanced-mode suffix. -/
def createAnalysisPrompt (files : List FileInfo) (config : GeminiConfig) : List Char :=
  let maxFiles := maxFilesFor config
  let fileList :=
    List.intercalate (lit "\n") ((promptFiles files config).map (fileBlock (maxContentFor config)))
  let base :=
    lit "\nAnalyze this codebase and provide a comprehensive summary. Focus on:\n\n"
    ++ lit "1. **Project Purpose**: What does this project do?\n"
    ++ lit "2. **Technology Stack**: What frameworks, libraries, and tools are used?\n"
    ++ lit "3. **Key Files**: Identify the most important files and their purposes\n"
    ++ lit "4. **Architecture**: How is the project structured?\n"
    ++ lit "5. **Main Features**: What are the core functionalities?\n\n"
    ++ lit "Files to analyze (" ++ (Nat.repr files.length).toList
    ++ lit " total files, showing first " ++ (Nat.repr (min maxFiles files.length)).toList
    ++ lit "):\n" ++ fileList
    ++ lit "\n\nPlease provide a detailed analysis in a structured format that explains:\n"
    ++ lit "- The overall purpose and goal of this project\n"
    ++ lit "- The main technologies and frameworks used\n"
    ++ lit "- The most important files and what they do\n"
    ++ lit "- The project\x27s architecture and organization\n"
    ++ lit "- Key features and functionality\n\n"
    ++ lit "Be specific and technical, but also accessible to developers who are new to this codebase.\n"
  if config.modelType = .advanced ∧ config.enableAdvancedFeatures = true then
    base ++ lit "\n\nENHANCED ANALYSIS MODE:\n"
      ++ lit "- Provide deeper insights into code patterns and best practices\n"
      ++ lit "- Identify potential improvements or architectural concerns\n"
      ++ lit "- Analyze the development workflow and tooling setup\n"
      ++ lit "- Comment on code quality and maintainability\n"
      ++ lit "- Suggest areas for optimization or refactoring\n\n"
      ++ lit "Keep your response comprehensive and well-structured (aim for 800-1200 words).\n"
  else
    base ++ lit "\nKeep your response concise but informative (aim for 500-700 words)."

/-! ### Fallback analyzer (src/fallback-analyzer.ts) -/

/-- The technology-stack detection of `generateBasicAnalysis`, in push
order. -/
def techStackOf (files : List FileInfo) : List (List Char) :=
  (if files.any (fun f => containsSub f.path (lit "package.json")) then
     [lit "Node.js/JavaScript"] else [])
  ++ (if files.any (fun f => f.extension == lit ".tsx" || f.extension == lit ".jsx") then
        [lit "React"] else [])
  ++ (if files.any (fun f => f.extension == lit ".ts") then [lit "TypeScript"] else [])
  ++ (if files.any (fun f => containsSub f.path (lit "next.config")) then
        [lit "Next.js"] else [])
  ++ (if files.any (fun f => containsSub f.path (lit "tailwind")) then
        [lit "Tailwind CSS"] else [])
  ++ (if files.any (fun f => f.extension == lit ".py") then [lit "Python"] else [])
  ++ (if files.any (fun f => f.extension == lit ".go") then [lit "Go"] else [])

/-- `guessProjectType` from src/fallback-analyzer.ts. -/
def guessProjectType (files : List FileInfo) (techStack : List (List Char)) : List Char :=
  if techStack.contains (lit "Next.js") then lit "Next.js web application"
  else if techStack.contains (lit "React") then lit "React application"
  else if files.any (fun f => containsSub f.path (lit "package.json")) then
    lit "Node.js application"
  else if techStack.contains (lit "Python") then lit "Python application"
  else if techStack.contains (lit "Go") then lit "Go application"
  else lit "software"

/-! ### Quota estimator (src/quota-checker.ts) -/

/-- The reduce in `estimateTokenUsage`: at most 2000 characters per file. -/
def contentCharSum (files : List FileInfo) : Nat :=
  files.foldl (fun sum f => sum + min f.content.length 2000) 0

/-- `estimateTokenUsage`: `Math.ceil((totalChars + 1000) / 4)`, the ceiling
written `(x + 3) / 4` on naturals. -/
def estimateTokenUsage (files : List FileInfo) : Nat :=
  let promptOverhead := 1000
  (contentCharSum files + promptOverhead + 3) / 4

/-! ### Helper lemmas about the classifier's branch structure -/

theorem parseQuotaError_type (m : List Char) :
    (parseQuotaError m).type = .quota_exceeded := rfl

theorem parseRateLimitError_type (m : List Char) :
    (parseRateLimitError m).type = .rate_limit := rfl

theorem parseRateLimitError_retryAfter (m : List Char) :
    (parseRateLimitError m).retryAfter = none := rfl

/-! ### Claim theorems -/

/-- The Gateway stub of claim C1: fails on attempts 1 and 2 with a
rate-limit error, succeeds on attempt 3. -/
def c1Stub : Nat → Except (List Char) (List Char) := fun attempt =>
  if attempt ≤ 2 then .error (lit "429 rate_limit_exceeded") else .ok (lit "third call analysis")

/-- C1: with the default budget `maxRetries = 2`, a Gateway that fails twice
with a `rate_limit` error and would succeed on the third call does NOT yield
success after two retries with delays 2s and 4s; `generateWithRetry` makes
only 2 calls, waits once (2000 ms), and rethrows the second failure.  The
third call is never made, contradicting the claim (and the code's own
"Exponential backoff: 2s, 4s" comment). -/
theorem c1_retry_gives_up_after_one_backoff :
    (parseGeminiError (lit "429 rate_limit_exceeded")).type = .rate_limit ∧
    c1Stub 3 = .ok (lit "third call analysis") ∧
    generateWithRetry c1Stub 2 =
      (.failure (lit "429 rate_limit_exceeded"), 2, [2000]) := by
  exact ⟨by decide, rfl, by decide⟩

/-- C2 (amended): a message containing `exceeded your current quota`,
`free_tier`, `requests` and `PerMinute` classifies as `quota_exceeded` with
the per-minute-limit suggestion; a message containing `429` and
`rate_limit_exceeded` and no quota-exceeded phrase classifies as
`rate_limit`. -/
theorem c2_classifier_quota_and_rate (m1 m2 : List Char)
    (h1 : containsSub m1 (lit "exceeded your current quota") = true)
    (h2 : containsSub m1 (lit "free_tier") = true)
    (h3 : containsSub m1 (lit "requests") = true)
    (h4 : containsSub m1 (lit "PerMinute") = true)
    (h5 : containsSub m2 (lit "429") = true)
    (h6 : containsSub m2 (lit "rate_limit_exceeded") = true)
    (h7 : containsSub (lowerL m2) (lit "exceeded your current quota") = false)
    (h8 : containsSub (lowerL m2) (lit "quotafailure") = false) :
    (parseGeminiError m1).type = .quota_exceeded ∧
    lit "⏱️  Free tier: 15 requests per minute limit" ∈ (parseGeminiError m1).suggestions ∧
    (parseGeminiError m2).type = .rate_limit := by
  have l1 : containsSub (lowerL m1) (lit "exceeded your current quota") = true := by
    have h := containsSub_map Char.toLower h1
    rw [show (lit "exceeded your current quota").map Char.toLower
      = lit "exceeded your current quota" from by decide] at h
    exact h
  have l5 : containsSub (lowerL m2) (lit "429") = true := by
    have h := containsSub_map Char.toLower h5
    rw [show (lit "429").map Char.toLower = lit "429" from by decide] at h
    exact h
  have l6 : containsSub (lowerL m2) (lit "rate_limit_exceeded") = true := by
    have h := containsSub_map Char.toLower h6
    rw [show (lit "rate_limit_exceeded").map Char.toLower
      = lit "rate_limit_exceeded" from by decide] at h
    exact h
  refine ⟨?_, ?_, ?_⟩
  · simp [parseGeminiError, l1, parseQuotaError]
  · simp [parseGeminiError, l1, parseQuotaError, h2, h3, h4, List.mem_append]
  · simp [parseGeminiError, h7, h8, l5, l6, parseRateLimitError]

/-- C2 counterexample: the message consisting of exactly the three claimed
substrings classifies as `quota_exceeded`, but no suggestion mentions a
per-minute limit (the per-minute suggestion also requires the substring
`requests`). -/
theorem c2_counterexample :
    containsSub (lit "exceeded your current quota free_tier PerMinute")
      (lit "exceeded your current quota") = true ∧
    containsSub (lit "exceeded your current quota free_tier PerMinute")
      (lit "free_tier") = true ∧
    containsSub (lit "exceeded your current quota free_tier PerMinute")
      (lit "PerMinute") = true ∧
    (parseGeminiError (lit "exceeded your current quota free_tier PerMinute")).type
      = .quota_exceeded ∧
    ((parseGeminiError (lit "exceeded your current quota free_tier PerMinute")).suggestions.any
      (fun s => containsSub (lowerL s) (lit "minute"))) = false := by
  decide

/-- C2 witness: the amended statement at concrete messages. -/
theorem c2_witness :
    (parseGeminiError (lit "exceeded your current quota free_tier requests PerMinute")).type
      = .quota_exceeded ∧
    lit "⏱️  Free tier: 15 requests per minute limit" ∈
      (parseGeminiError
        (lit "exceeded your current quota free_tier requests PerMinute")).suggestions ∧
    (parseGeminiError (lit "429 rate_limit_exceeded")).type = .rate_limit :=
  c2_classifier_quota_and_rate
    (lit "exceeded your current quota free_tier requests PerMinute")
    (lit "429 rate_limit_exceeded")
    (by decide) (by decide) (by decide) (by decide)
    (by decide) (by decide) (by decide) (by decide)

/-- C8 (amended): when the message takes the quota-exceeded branch and its
first `retryDelay: "Ns"`-shaped substring parses to 30, the classification
carries `retryAfter = 30` with a suggestion stating the parsed value. -/
theorem c8_retry_delay_in_quota (msg : List Char)
    (hq : (containsSub (lowerL msg) (lit "exceeded your current quota")
        || containsSub (lowerL msg) (lit "quotafailure")) = true)
    (hr : extractRetryDelay msg = some 30) :
    (parseGeminiError msg).retryAfter = some 30 ∧
    lit "⏰ Suggested retry time: 30 seconds" ∈ (parseGeminiError msg).suggestions := by
  constructor
  · simp [parseGeminiError, hq, parseQuotaError, hr]
  · simp [parseGeminiError, hq, parseQuotaError, hr, List.mem_append]
    exact Or.inr (by decide)

/-- C8 counterexample: a message that contains `retryDelay: "30s"` (and the
extraction itself would find 30) but no quota-exceeded phrase classifies as
`unknown` and carries no `retryAfter` at all. -/
theorem c8_counterexample :
    containsSub (lit "retryDelay: \x2230s\x22") (lit "retryDelay: \x2230s\x22") = true ∧
    extractRetryDelay (lit "retryDelay: \x2230s\x22") = some 30 ∧
    (parseGeminiError (lit "retryDelay: \x2230s\x22")).type = .unknown ∧
    (parseGeminiError (lit "retryDelay: \x2230s\x22")).retryAfter = none := by
  decide

/-- C8 witness: the amended statement at a concrete quota message. -/
theorem c8_witness :
    (parseGeminiError (lit "QuotaFailure: retryDelay: \x2230s\x22")).retryAfter = some 30 ∧
    lit "⏰ Suggested retry time: 30 seconds" ∈
      (parseGeminiError (lit "QuotaFailure: retryDelay: \x2230s\x22")).suggestions :=
  c8_retry_delay_in_quota (lit "QuotaFailure: retryDelay: \x2230s\x22")
    (by decide) (by decide)

/-- C10: every classification whose kind is not `quota_exceeded` carries no
`retryAfter`, and in particular after a `rate_limit` classification the
interactive wait-and-retry delay is the 60-second default. -/
theorem c10_retry_after_only_quota (msg : List Char)
    (h : (parseGeminiError msg).type ≠ .quota_exceeded) :
    (parseGeminiError msg).retryAfter = none ∧
    ((parseGeminiError msg).type = .rate_limit →
      interactiveWaitTime (parseGeminiError msg) = 60) := by
  by_cases c1 : (containsSub (lowerL msg) (lit "exceeded your current quota")
      || containsSub (lowerL msg) (lit "quotafailure")) = true
  · exact absurd (by simp [parseGeminiError, c1, parseQuotaError]) h
  · simp only [Bool.not_eq_true] at c1
    by_cases c2 : (containsSub (lowerL msg) (lit "429")
        && containsSub (lowerL msg) (lit "rate_limit_exceeded")) = true
    · constructor
      · simp [parseGeminiError, c1, c2, parseRateLimitError]
      · intro _
        simp [parseGeminiError, c1, c2, parseRateLimitError, interactiveWaitTime]
    · simp only [Bool.not_eq_true] at c2
      by_cases c3 : (containsSub (lowerL msg) (lit "401")
          || containsSub (lowerL msg) (lit "api_key")) = true
      · simp [parseGeminiError, c1, c2, c3, interactiveWaitTime]
      · simp only [Bool.not_eq_true] at c3
        by_cases c4 : (containsSub (lowerL msg) (lit "400")
            || containsSub (lowerL msg) (lit "content")) = true
        · simp [parseGeminiError, c1, c2, c3, c4, interactiveWaitTime]
        · simp only [Bool.not_eq_true] at c4
          by_cases c5 : (containsSub (lowerL msg) (lit "model")
              && containsSub (lowerL msg) (lit "not found")) = true
          · simp [parseGeminiError, c1, c2, c3, c4, c5, interactiveWaitTime]
          · simp only [Bool.not_eq_true] at c5
            simp [parseGeminiError, c1, c2, c3, c4, c5, interactiveWaitTime]

/-- C10 witness: a pure rate-limit message carries no `retryAfter` and waits
the 60-second default. -/
theorem c10_witness :
    (parseGeminiError (lit "429: rate_limit_exceeded, quota metric")).retryAfter = none ∧
    interactiveWaitTime (parseGeminiError (lit "429: rate_limit_exceeded, quota metric")) = 60 :=
  ⟨(c10_retry_after_only_quota (lit "429: rate_limit_exceeded, quota metric") (by decide)).1,
   (c10_retry_after_only_quota (lit "429: rate_limit_exceeded, quota metric") (by decide)).2
     (by decide)⟩

/-- C3: when every Gateway call fails with a message classified
`content_too_large`, `model_unavailable` or `unknown`, the retry wrapper
gives up after the first call with no backoff wait, and the run fails with a
fatal error for every oracle (no interactive prompt is consulted). -/
theorem c3_fatal_kinds_fail_fast (msg : List Char)
    (h : (parseGeminiError msg).type = .content_too_large ∨
         (parseGeminiError msg).type = .model_unavailable ∨
         (parseGeminiError msg).type = .unknown)
    (stub : Nat → Nat → Except (List Char) (List Char))
    (hs : ∀ depth attempt, stub depth attempt = .error msg) :
    (∀ depth, generateWithRetry (stub depth) 2 = (.failure msg, 1, [])) ∧
    (∀ oracle fallbackText fuel depth,
      analyzeRun stub oracle fallbackText (fuel + 1) depth = .error (.fatal msg)) := by
  have hnr : ¬ (parseGeminiError msg).type = .rate_limit := by
    rcases h with h | h | h <;> simp [h]
  have hgen : ∀ depth, generateWithRetry (stub depth) 2 = (.failure msg, 1, []) := by
    intro depth
    show retryGo (stub depth) 1 2 = (.failure msg, 1, [])
    rw [show (2 : Nat) = 1 + 1 from rfl]
    simp [retryGo, hs depth 1, hnr]
  refine ⟨hgen, ?_⟩
  intro oracle fallbackText fuel depth
  have hq : ¬ ((parseGeminiError msg).type = .quota_exceeded ∨
      (parseGeminiError msg).type = .rate_limit) := by
    rcases h with h | h | h <;> simp [h]
  have hik : ¬ (parseGeminiError msg).type = .invalid_key := by
    rcases h with h | h | h <;> simp [h]
  simp [analyzeRun, hgen depth, hq, hik]

/-- C3 witness: a Gateway that always fails with a `400` (content) error
makes the run fail fatally at once. -/
theorem c3_witness :
    analyzeRun (fun _ _ => .error (lit "400 Bad Request"))
      ⟨fun _ => .fallback, fun _ => true⟩ [] 1 0 = .error (.fatal (lit "400 Bad Request")) :=
  (c3_fatal_kinds_fail_fast (lit "400 Bad Request") (Or.inl (by decide))
    (fun _ _ => .error (lit "400 Bad Request")) (fun _ _ => rfl)).2
    ⟨fun _ => .fallback, fun _ => true⟩ [] 0 0

/-- C4: choosing "exit" in the quota/rate-limit menu, or declining a new API
key, makes `analyzeRepository` fail with the distinct `UserExitError`
sentinel, which the top-level caller maps to exit code 0; every real error
maps to exit code 1. -/
theorem c4_user_exit_clean
    (stub : Nat → Nat → Except (List Char) (List Char)) (oracle : Oracle)
    (fallbackText msg : List Char) (fuel depth : Nat)
    (hfail : (generateWithRetry (stub depth) 2).1 = .failure msg) :
    (((parseGeminiError msg).type = .quota_exceeded ∨
        (parseGeminiError msg).type = .rate_limit) →
      oracle.menuChoice depth = .quitRun →
      analyzeRun stub oracle fallbackText (fuel + 1) depth
          = .error (.userExit (lit "User chose to exit")) ∧
        exitCodeOfError (.userExit (lit "User chose to exit")) = 0) ∧
    ((parseGeminiError msg).type = .invalid_key →
      oracle.keyConfirm depth = false →
      analyzeRun stub oracle fallbackText (fuel + 1) depth
          = .error (.userExit (lit "User chose not to provide new API key")) ∧
        exitCodeOfError (.userExit (lit "User chose not to provide new API key")) = 0) ∧
    (∀ m, exitCodeOfError (.fatal m) = 1) := by
  refine ⟨?_, ?_, fun m => rfl⟩
  · intro hty hchoice
    refine ⟨?_, rfl⟩
    simp only [analyzeRun, hfail]
    rw [if_pos hty, hchoice]
  · intro hty hconf
    refine ⟨?_, rfl⟩
    have hq : ¬ ((parseGeminiError msg).type = .quota_exceeded ∨
        (parseGeminiError msg).type = .rate_limit) := by simp [hty]
    simp only [analyzeRun, hfail]
    rw [if_neg hq, if_pos hty, hconf]
    simp

/-- C4 witness: a rate-limited run where the user picks "exit" ends as a
clean user exit with code 0, and an invalid-key run where the user declines
a new key does too. -/
theorem c4_witness :
    (analyzeRun (fun _ _ => .error (lit "429 rate_limit_exceeded"))
        ⟨fun _ => .quitRun, fun _ => false⟩ [] 1 0
        = .error (.userExit (lit "User chose to exit")) ∧
      exitCodeOfError (.userExit (lit "User chose to exit")) = 0) ∧
    exitCodeOfError (.fatal (lit "boom")) = 1 :=
  ⟨(c4_user_exit_clean (fun _ _ => .error (lit "429 rate_limit_exceeded"))
      ⟨fun _ => .quitRun, fun _ => false⟩ [] (lit "429 rate_limit_exceeded") 0 0
      (by decide)).1 (Or.inr (by decide)) rfl,
   (c4_user_exit_clean (fun _ _ => .error (lit "429 rate_limit_exceeded"))
      ⟨fun _ => .quitRun, fun _ => false⟩ [] (lit "429 rate_limit_exceeded") 0 0
      (by decide)).2.2 (lit "boom")⟩

theorem fileLe_total (a b : FileInfo) : fileLe a b = true ∨ fileLe b a = true := by
  cases ha : importantExt a.extension <;> cases hb : importantExt b.extension <;>
    simp [fileLe, ha, hb] <;> omega

theorem fileLe_trans {a b c : FileInfo} (h1 : fileLe a b = true) (h2 : fileLe b c = true) :
    fileLe a c = true := by
  cases ha : importantExt a.extension <;> cases hb : importantExt b.extension <;>
    cases hc : importantExt c.extension <;>
    simp_all [fileLe, ha, hb, hc] <;> omega

instance : IsTotal FileInfo fileRel := ⟨fun a b => fileLe_total a b⟩

instance : IsTrans FileInfo fileRel := ⟨fun _ _ _ h1 h2 => fileLe_trans h1 h2⟩

/-- C5 (amended): the scanner's output is ordered with files whose EXTENSION
is in the allow-list before the others, and ascending by byte size within
each group; the comparator ignores the name-based part of the importance
test used during selection. -/
theorem c5_scan_ordering (raw : List RawFile) :
    (scanRepository raw).Pairwise (fun a b =>
      (importantExt a.extension = true ∧ importantExt b.extension = false) ∨
      (importantExt a.extension = importantExt b.extension ∧ a.size ≤ b.size)) := by
  have h : (scanRepository raw).Pairwise fileRel :=
    List.sorted_insertionSort fileRel (scanSelect raw [])
  refine h.imp ?_
  intro a b hab
  unfold fileRel fileLe at hab
  by_cases he : importantExt a.extension = importantExt b.extension
  · right
    rw [if_pos he] at hab
    exact ⟨he, of_decide_eq_true hab⟩
  · left
    rw [if_neg he] at hab
    cases hb : importantExt b.extension
    · exact ⟨hab, rfl⟩
    · exact absurd (hab.trans hb.symm) he

/-- C5 counterexample: a file important only by its NAME (`README`, empty
extension) is sorted after a smaller non-important file, although the
claim's importance notion (extension allow-list or name patterns) calls
`README` important and `data.txt` not. -/
theorem c5_counterexample :
    scanRepository
        [⟨lit "README", 100, some (lit "readme")⟩, ⟨lit "data.txt", 5, some (lit "abc")⟩]
      = [⟨lit "data.txt", lit "abc", 5, lit ".txt"⟩, ⟨lit "README", lit "readme", 100, lit ""⟩] ∧
    specImportant (lit "README") (lit "") = true ∧
    specImportant (lit "data.txt") (lit ".txt") = false := by
  refine ⟨by decide, by decide, by decide⟩

/-- C6: the prompt includes at most `maxFiles` files (12 standard, 20
advanced), every included file is under 30 000 bytes, every included content
slice is at most `maxContentLength` characters (1200 standard, 2000
advanced), and a file whose content exceeds the cap carries the explicit
truncation marker in its block. -/
theorem c6_prompt_caps (files : List FileInfo) (config : GeminiConfig) :
    (promptFiles files config).length ≤ maxFilesFor config ∧
    (∀ f ∈ promptFiles files config,
      f.size < 30000 ∧
      (f.content.take (maxContentFor config)).length ≤ maxContentFor config ∧
      (maxContentFor config < f.content.length →
        containsSub (fileBlock (maxContentFor config) f) (lit "\n... (truncated)") = true)) ∧
    (config.modelType = .standard → maxFilesFor config = 12 ∧ maxContentFor config = 1200) ∧
    (config.modelType = .advanced → maxFilesFor config = 20 ∧ maxContentFor config = 2000) := by
  refine ⟨List.length_take_le _ _, ?_, ?_, ?_⟩
  · intro f hf
    have hmem : f ∈ files.filter (fun f => decide (f.size < 30000)) :=
      List.mem_of_mem_take hf
    have hsize : f.size < 30000 := of_decide_eq_true (List.mem_filter.mp hmem).2
    refine ⟨hsize, List.length_take_le _ _, ?_⟩
    intro hlen
    unfold fileBlock
    rw [if_pos hlen, List.append_assoc]
    exact containsSub_middle _ _ _
  · intro h
    constructor <;> simp [maxFilesFor, maxContentFor, h]
  · intro h
    constructor <;> simp [maxFilesFor, maxContentFor, h]

/-- The file set of claim C7 whose only file is `main.go`. -/
def mainGoFile : FileInfo := ⟨lit "main.go", lit "package main", 12, lit ".go"⟩

/-- A file set containing `next.config.js`, for claim C7. -/
def nextConfigFile : FileInfo := ⟨lit "next.config.js", lit "module.exports = \x7b\x7d", 20, lit ".js"⟩

/-- C7 counterexample: for the `main.go`-only file set the project-type
guess is `Go application`, not `software` as claimed (the `Go` rule fires
before the default). -/
theorem c7_counterexample :
    techStackOf [mainGoFile] = [lit "Go"] ∧
    guessProjectType [mainGoFile] (techStackOf [mainGoFile]) = lit "Go application" ∧
    guessProjectType [mainGoFile] (techStackOf [mainGoFile]) ≠ lit "software" := by
  refine ⟨by decide, by decide, by decide⟩

/-- C7 (amended): the `main.go`-only set detects the `Go` stack and guesses
`Go application`; a set containing `next.config.js` guesses
`Next.js web application`. -/
theorem c7_fallback_labels :
    lit "Go" ∈ techStackOf [mainGoFile] ∧
    guessProjectType [mainGoFile] (techStackOf [mainGoFile]) = lit "Go application" ∧
    guessProjectType [nextConfigFile] (techStackOf [nextConfigFile])
      = lit "Next.js web application" := by
  refine ⟨by decide, by decide, by decide⟩

theorem contentCharSum_go (l : List FileInfo) (a : Nat) :
    l.foldl (fun sum f => sum + min f.content.length 2000) a = a + contentCharSum l := by
  induction l generalizing a with
  | nil => simp [contentCharSum]
  | cons f fs ih =>
    show fs.foldl _ (a + min f.content.length 2000) = _
    rw [ih]
    have : contentCharSum (f :: fs)
        = (0 + min f.content.length 2000) + contentCharSum fs := by
      show fs.foldl _ (0 + min f.content.length 2000) = _
      rw [ih]
    rw [this]
    omega

theorem contentCharSum_append (l1 l2 : List FileInfo) :
    contentCharSum (l1 ++ l2) = contentCharSum l1 + contentCharSum l2 := by
  unfold contentCharSum
  rw [List.foldl_append]
  rw [contentCharSum_go l2 (List.foldl _ 0 l1)]
  rfl

/-- C9: the estimate of an empty file list is `ceil(1000/4) = 250`; the
estimate never decreases when a file is appended or when an existing file's
content grows; and each file contributes exactly `min(length, 2000)`
characters to the character total. -/
theorem c9_estimate_props :
    estimateTokenUsage [] = 250 ∧
    (∀ fs f, estimateTokenUsage fs ≤ estimateTokenUsage (fs ++ [f])) ∧
    (∀ pre post f g, f.content.length ≤ g.content.length →
      estimateTokenUsage (pre ++ f :: post) ≤ estimateTokenUsage (pre ++ g :: post)) ∧
    (∀ fs f, contentCharSum (fs ++ [f]) = contentCharSum fs + min f.content.length 2000) := by
  have hone : ∀ f : FileInfo, contentCharSum [f] = min f.content.length 2000 := by
    intro f
    show List.foldl _ 0 [f] = _
    simp [contentCharSum]
  refine ⟨rfl, ?_, ?_, ?_⟩
  · intro fs f
    unfold estimateTokenUsage
    apply Nat.div_le_div_right
    rw [contentCharSum_append]
    omega
  · intro pre post f g hfg
    unfold estimateTokenUsage
    apply Nat.div_le_div_right
    have hf : contentCharSum (pre ++ f :: post)
        = contentCharSum pre + contentCharSum [f] + contentCharSum post := by
      rw [show pre ++ f :: post = pre ++ [f] ++ post from by simp, contentCharSum_append,
        contentCharSum_append]
    have hg : contentCharSum (pre ++ g :: post)
        = contentCharSum pre + contentCharSum [g] + contentCharSum post := by
      rw [show pre ++ g :: post = pre ++ [g] ++ post from by simp, contentCharSum_append,
        contentCharSum_append]
    have hmin : min f.content.length 2000 ≤ min g.content.length 2000 :=
      min_le_min hfg (le_refl 2000)
    rw [hf, hg, hone f, hone g]
    omega
  · intro fs f
    rw [contentCharSum_append, hone f]

end VibeCode
